import Mathlib

/-!
Verification development for the lanzou-gui worker layer.

The Python modules `workers.py` and `tools.py` are shallowly embedded below.
Python dicts are modelled as association lists in insertion order (`aset`
replaces an existing binding in place, exactly as `d[k] = v` does; `aerase`
removes a binding, exactly as `del d[k]` does).  Machine strings stay
`String`; byte strings are lists of naturals below 256; Python exceptions
are modelled with `Option`/`Except`.  Qt signal emissions are returned as
explicit output records.
-/

namespace LanzouGui

/-! ## Association lists modelling Python dicts -/

def alookup {κ : Type} [DecidableEq κ] {α : Type} (k : κ) : List (κ × α) → Option α
  | [] => none
  | (k2, v) :: t => if k2 = k then some v else alookup k t

def aset {κ : Type} [DecidableEq κ] {α : Type} (k : κ) (v : α) : List (κ × α) → List (κ × α)
  | [] => [(k, v)]
  | (k2, v2) :: t => if k2 = k then (k, v) :: t else (k2, v2) :: aset k v t

def aerase {κ : Type} [DecidableEq κ] {α : Type} (k : κ) : List (κ × α) → List (κ × α)
  | [] => []
  | (k2, v2) :: t => if k2 = k then t else (k2, v2) :: aerase k t

def countKey {κ : Type} [DecidableEq κ] {α : Type} (k : κ) (l : List (κ × α)) : Nat :=
  (l.filter (fun kv => kv.1 = k)).length

/-! ## Backend status codes (`LanZouCloud` constants, external enumeration) -/

inductive Code where
  | SUCCESS
  | URL_INVALID
  | LACK_PASSWORD
  | PASSWORD_ERROR
  | FILE_CANCELLED
  | ZIP_ERROR
  | NETWORK_ERROR
  | MKDIR_ERROR
  | FAILED
deriving DecidableEq, Repr

/-! ## Progress reporting (`show_progress`, `Downloader._show_progress`,
`UploadWorker._show_progress`)

`Downloader._show_progress` emits `int(1000 * now_size / total_size)` and
`show_progress` computes `percent = now_size / total_size`.  Both divide by
`total_size` with no guard: at `total_size == 0` Python raises
`ZeroDivisionError`, modelled as `none`.  On nonzero totals the Python
expression is the real number `1000 * now / total` truncated toward zero,
which for naturals is floor division. -/

def showProgressRate (total now : Nat) : Option Nat :=
  if total = 0 then none else some (1000 * now / total)

def showProgressPercent (total now : Nat) : Option ℚ :=
  if total = 0 then none else some ((now : ℚ) / (total : ℚ))

/-! ## Credential obfuscation (`tools.encrypt` / `tools.decrypt` / `UserInfo`)

Strings are modelled at the byte level: `encrypt` first UTF-8 encodes its
argument, then maps each byte `b` to the two bytes
`(b xor key) % 19 + 46` and `(b xor key) // 19 + 46`; `decrypt` reverses
this pairwise.  The emitted bytes are all ASCII, so the intermediate
`c.decode("utf-8")` / re-encode steps are the identity on the byte list. -/

def KEY : Nat := 152

def encBytes (key : Nat) : List Nat → List Nat
  | [] => []
  | b :: t => ((b ^^^ key) % 19 + 46) :: ((b ^^^ key) / 19 + 46) :: encBytes key t

def decPairs (key : Nat) : List Nat → List Nat
  | c1 :: c2 :: t => (((c2 - 46) * 19 + (c1 - 46)) ^^^ key) :: decPairs key t
  | _ => []

def decryptBytes (key : Nat) (cs : List Nat) : List Nat :=
  if cs.length % 2 ≠ 0 then [] else decPairs key cs

/-- In `UserInfo.encode`, a dict is encrypted per value, a truthy value is
encrypted, and a falsy value (`None` or the empty string) is returned
unchanged. -/
def uiEncode : Option (List Nat) → Option (List Nat)
  | none => none
  | some [] => some []
  | some bs => some (encBytes KEY bs)

/-- In `UserInfo.decode`, a falsy stored value (`None` or the empty string)
yields `None`; otherwise `decrypt` runs under a `try` whose handler returns
`None` — a reconstructed byte above 255 makes the `bytearray` assignment
raise, modelled by the `all (< 256)` check. -/
def uiDecode : Option (List Nat) → Option (List Nat)
  | none => none
  | some [] => none
  | some cs =>
      let d := decryptBytes KEY cs
      if d.all (fun b => b < 256) then some d else none

structure UserInfoM where
  username : Option (List Nat)
  pwd : Option (List Nat)
  cookie : Option (List Nat)
deriving DecidableEq

def mkUserInfo (n p c : Option (List Nat)) : UserInfoM :=
  ⟨uiEncode n, uiEncode p, uiEncode c⟩

def UserInfoM.name (u : UserInfoM) : Option (List Nat) := uiDecode u.username

def UserInfoM.pwdVal (u : UserInfoM) : Option (List Nat) := uiDecode u.pwd

def UserInfoM.cookieVal (u : UserInfoM) : Option (List Nat) := uiDecode u.cookie

/-! ## Download job records (`tools.DlJob` namedtuple) -/

structure DlJob where
  name : String
  url : String
  pwd : String
  path : String
  info : Option String
  run : Bool
  rate : Nat
deriving DecidableEq

/-! ## `DownloadManager` (bounded download dispatcher)

State of one `DownloadManager` together with the `Downloader` threads it has
spawned.  `workers` records every spawned `Downloader` thread (worker id,
isRunning flag); `downloaders` models the `self.downloaders` dict mapping a
url to the worker id currently stored under that key; `dl_ing`, `tasks`,
`count`, `thread` model `self._dl_ing`, `self._tasks`, `self._count`,
`self._thread`.

`lastUrl` models the dispatch loop's local variable `url`: every
`finished.connect(lambda: self._add_thread(url))` closure reads this shared
variable at call time (Python late binding), so a finishing worker retires
whatever url was dispatched last, not necessarily its own.  A single cell
suffices for the traces considered here (all closures below are created in
one run of the dispatch loop). -/

structure MgrState where
  tasks : List (String × DlJob)
  thread : Nat
  count : Int
  workers : List (Nat × Bool)
  downloaders : List (String × Nat)
  dl_ing : List (String × DlJob)
  lastUrl : String
  nextWid : Nat
deriving DecidableEq

def initMgr (threads : Nat) : MgrState :=
  { tasks := [], thread := threads, count := 0, workers := [], downloaders := [],
    dl_ing := [], lastUrl := "", nextWid := 0 }

/-- `DownloadManager.add_task`: insert the job under its url unless that key
is already pending, then kick the dispatch loop. -/
def addTask (t : DlJob) (s : MgrState) : MgrState :=
  match alookup t.url s.tasks with
  | some _ => s
  | none => { s with tasks := s.tasks ++ [(t.url, t)] }

/-- `DownloadManager.add_tasks`: `self._tasks.update(tasks)` — dict update,
which overwrites the value of a key that is already pending. -/
def addTasks (ts : List (String × DlJob)) (s : MgrState) : MgrState :=
  { s with tasks := ts.foldl (fun acc kv => aset kv.1 kv.2 acc) s.tasks }

/-- One iteration of the dispatch loop in `DownloadManager.run`: when a job
is pending and `_count < _thread`, increment `_count`, take the first
pending url, store a fresh running `Downloader` under it, publish the job
with `run=True`, remember the loop variable `url`, and delete the job from
`_tasks`.  When at the ceiling the loop merely idle-waits, modelled as a
no-op step. -/
def dispatchStep (s : MgrState) : MgrState :=
  match s.tasks with
  | [] => s
  | (url, task) :: rest =>
    if s.count < (s.thread : Int) then
      { s with
        count := s.count + 1
        workers := s.workers ++ [(s.nextWid, true)]
        downloaders := aset url s.nextWid s.downloaders
        dl_ing := aset url { task with run := true } s.dl_ing
        lastUrl := url
        nextWid := s.nextWid + 1
        tasks := rest }
    else s

/-- A `Downloader` thread stops executing (its `run` returned or it was
terminated); the queued `finished` signal is delivered separately by
`finishedSlot`. -/
def workerExit (wid : Nat) (s : MgrState) : MgrState :=
  { s with workers := aset wid false s.workers }

/-- Delivery of a `finished` signal: the connected
`lambda: self._add_thread(url)` runs `self._count -= 1` and
`del self.downloaders[url]` with `url` read late from the loop variable. -/
def finishedSlot (s : MgrState) : MgrState :=
  { s with count := s.count - 1, downloaders := aerase s.lastUrl s.downloaders }

/-- `DownloadManager.stop_task`: `self.downloaders[task.url]` raises
`KeyError` (`none`) when the key is absent; if that worker is running it is
stopped (terminate — the later `finished` delivery is a separate
`finishedSlot` event) and the published record is republished with
`run=False`. -/
def stopTask (t : DlJob) (s : MgrState) : Option MgrState :=
  match alookup t.url s.downloaders with
  | none => none
  | some wid =>
    if (alookup wid s.workers).getD false then
      match alookup t.url s.dl_ing with
      | none => none
      | some j => some { s with
          workers := aset wid false s.workers
          dl_ing := aset t.url { j with run := false } s.dl_ing }
    else some s

/-- `DownloadManager.start_task`: an unknown url is re-added via `add_task`;
a known url whose stored worker is not running is restarted with
`QThread.start()` (note: `_count` is not incremented) and republished with
`run=True`; a running worker is left alone. -/
def startTask (t : DlJob) (s : MgrState) : Option MgrState :=
  match alookup t.url s.downloaders with
  | none => some (addTask t s)
  | some wid =>
    if (alookup wid s.workers).getD false then some s
    else
      match alookup t.url s.dl_ing with
      | none => none
      | some j => some { s with
          workers := aset wid true s.workers
          dl_ing := aset t.url { j with run := true } s.dl_ing }

/-- Number of `Downloader` threads currently executing. -/
def inFlight (s : MgrState) : Nat := (s.workers.filter (fun w => w.2)).length

def jobU1 : DlJob := { name := "n1", url := "u1", pwd := "", path := "/d", info := none, run := false, rate := 0 }

def jobU2 : DlJob := { name := "n2", url := "u2", pwd := "", path := "/d", info := none, run := false, rate := 0 }

def jobU3 : DlJob := { name := "n3", url := "u3", pwd := "", path := "/d", info := none, run := false, rate := 0 }

/-- Trace for claim C1, ceiling 2: submit u1 and u2, dispatch both, stop u1
(its `finished` delivery runs `_add_thread` with the late-bound loop
variable `url = "u2"`, so u2's dict entry is retired while u2's thread keeps
running), restart u1 via `start_task` (which does not touch `_count`),
submit and dispatch u3. -/
def c1Trace : Option MgrState :=
  let s4 := dispatchStep (dispatchStep (addTask jobU2 (addTask jobU1 (initMgr 2))))
  (stopTask jobU1 s4).bind fun s5 =>
  (startTask jobU1 (finishedSlot s5)).map fun s7 =>
  dispatchStep (addTask jobU3 s7)

/-! ## Upload job records (`tools.UpJob` namedtuple) and `UploadWorker` -/

structure UpJob where
  furl : String
  id : Nat
  folder : String
  info : Option String
  run : Bool
  rate : Nat
  set_pwd : Bool
  pwd : String
  set_desc : Bool
  desc : String
deriving DecidableEq

/-- Result of `disk.upload_file`: a normal return `(code, fid, isfile)`, a
`TimeoutError`, or any other raised fault. -/
inductive UpOutcome where
  | ok (code : Code) (fid : Nat) (isfile : Bool)
  | timeout
  | err
deriving DecidableEq

/-- Backend calls issued after (or instead of) a single-file upload. -/
inductive FollowUp where
  | setPasswd (fid : Nat) (pwd : String) (isfile : Bool)
  | setDesc (fid : Nat) (desc : String) (isfile : Bool)
  | uploadDir (furl : String) (folderId : Nat)
deriving DecidableEq

structure UpState where
  tasks : List (String × UpJob)
deriving DecidableEq

structure UpEffects where
  followUps : List FollowUp
  finalTask : Option UpJob
  msgs : List String
deriving DecidableEq

/-- One iteration of the `while True` body of `UploadWorker.run`, given the
filesystem (`fs furl = none`: path missing; `some true`: directory;
`some false`: regular file) and the `upload_file` behaviour.  Message texts
are modelled without their HTML markup.  Note the missing-path branch: it
emits the not-found message and then `continue`s without `del
self._tasks[self._furl]` and without touching `info`, so the state is
returned unchanged.  All other branches end with the `del`. -/
def uploadIter (fs : String → Option Bool) (upload : String → Nat → UpOutcome)
    (s : UpState) : UpState × UpEffects :=
  match s.tasks with
  | [] => (s, { followUps := [], finalTask := none, msgs := [] })
  | (furl, task) :: _ =>
    match fs furl with
    | none => (s, { followUps := [], finalTask := some task, msgs := ["ERROR : 文件不存在:" ++ furl] })
    | some true =>
        ({ tasks := aerase furl s.tasks },
         { followUps := [FollowUp.uploadDir furl task.id], finalTask := some task,
           msgs := ["INFO : 批量上传文件夹:" ++ furl] })
    | some false =>
      match upload task.furl task.id with
      | .timeout =>
          ({ tasks := aerase furl s.tasks },
           { followUps := [], finalTask := some { task with info := some "网络连接超时" },
             msgs := ["INFO : 上传文件:" ++ furl, "ERROR : 网络连接超时，请重试！"] })
      | .err =>
          ({ tasks := aerase furl s.tasks },
           { followUps := [], finalTask := some { task with info := some "未知错误" },
             msgs := ["INFO : 上传文件:" ++ furl] })
      | .ok code fid isfile =>
          let f1 := if code = Code.SUCCESS ∧ task.set_pwd then [FollowUp.setPasswd fid task.pwd isfile] else []
          let f2 := if code = Code.SUCCESS ∧ task.set_desc then [FollowUp.setDesc fid task.desc isfile] else []
          ({ tasks := aerase furl s.tasks },
           { followUps := f1 ++ f2, finalTask := some { task with info := some "上传成功" },
             msgs := ["INFO : 上传文件:" ++ furl] })

def uploadStepState (fs : String → Option Bool) (upload : String → Nat → UpOutcome)
    (s : UpState) : UpState :=
  (uploadIter fs upload s).1

/-- Filesystem on which no path exists. -/
def fsMissing : String → Option Bool := fun _ => none

def upNever : String → Nat → UpOutcome := fun _ _ => UpOutcome.err

def jobGone : UpJob :=
  { furl := "/gone", id := 4, folder := "f", info := none, run := false, rate := 0,
    set_pwd := false, pwd := "", set_desc := false, desc := "" }

def upStateGone : UpState := { tasks := [("/gone", jobGone)] }

/-- Filesystem for the C9 scenarios: the single path `/a.txt` is a file. -/
def fsC9 : String → Option Bool := fun p => if p = "/a.txt" then some false else none

def jobC9 : UpJob :=
  { furl := "/a.txt", id := 9, folder := "f", info := none, run := false, rate := 0,
    set_pwd := true, pwd := "ab", set_desc := false, desc := "" }

/-- `upload_file` declining the upload with the explicit non-success status
`FAILED`. -/
def upDeclined : String → Nat → UpOutcome := fun _ _ => UpOutcome.ok Code.FAILED 7 true

/-! ## `GetSharedInfo` (single-flight guarded worker) -/

inductive GFault where
  | timeout
  | err
deriving DecidableEq

structure GSInfo where
  code : Code
deriving DecidableEq

structure GSState where
  is_work : Bool
  share_url : String
  pwd : String
  is_file : Bool
  is_folder : Bool
deriving DecidableEq

structure GSOut where
  msgs : List String
  backendCalls : Nat
  infosEmitted : Bool
  unlocks : Nat
deriving DecidableEq

/-- `GetSharedInfo.emit_msg`: one status message per backend code (texts
modelled without markup; codes with no branch emit nothing). -/
def gsEmitMsg (pwd : String) (c : Code) : List String :=
  match c with
  | .FILE_CANCELLED => ["文件不存在，或已删除！"]
  | .URL_INVALID => ["链接非法！"]
  | .PASSWORD_ERROR => ["提取码 " ++ pwd ++ " 错误！"]
  | .LACK_PASSWORD => ["请在链接后面跟上提取码，空格分割！"]
  | .NETWORK_ERROR => ["网络错误！"]
  | .SUCCESS => ["提取成功！"]
  | _ => []

/-- `GetSharedInfo.run`.  While `_is_work` is set, the else branch emits the
busy notice and returns without touching the backend or the state.
Otherwise the mutex is taken, `_is_work` set, the query run under
`try/except` (a `TimeoutError` emits the timeout notice; any other fault is
only logged; when neither `is_file` nor `is_folder` is set, the reference to
the unbound `_infos` raises and is swallowed by the generic handler), and on
every path `_is_work` is cleared and the mutex released exactly once. -/
def gsRun (backFile backFolder : String → String → Except GFault GSInfo)
    (s : GSState) : GSState × GSOut :=
  if s.is_work then
    (s, { msgs := ["后台正在运行，稍后重试！"], backendCalls := 0, infosEmitted := false, unlocks := 0 })
  else
    let out : GSOut :=
      if s.is_file then
        match backFile s.share_url s.pwd with
        | .ok i => { msgs := gsEmitMsg s.pwd i.code, backendCalls := 1, infosEmitted := true, unlocks := 1 }
        | .error .timeout => { msgs := ["网络超时！请稍后重试"], backendCalls := 1, infosEmitted := false, unlocks := 1 }
        | .error .err => { msgs := [], backendCalls := 1, infosEmitted := false, unlocks := 1 }
      else if s.is_folder then
        match backFolder s.share_url s.pwd with
        | .ok i => { msgs := gsEmitMsg s.pwd i.code, backendCalls := 1, infosEmitted := true, unlocks := 1 }
        | .error .timeout => { msgs := ["网络超时！请稍后重试"], backendCalls := 1, infosEmitted := false, unlocks := 1 }
        | .error .err => { msgs := [], backendCalls := 1, infosEmitted := false, unlocks := 1 }
      else { msgs := [], backendCalls := 0, infosEmitted := false, unlocks := 1 }
    ({ s with is_work := false }, out)

/-! ## `SetPwdWorker` (single-flight guarded worker) -/

structure SPInfo where
  id : Nat
  is_file : Bool
  new_pwd : String
deriving DecidableEq

inductive SPExc where
  | userWarning (m : String)
  | timeout
  | err
deriving DecidableEq

/-- The `for infos in self.infos` loop of `SetPwdWorker.run`, in an
exception monad: password-length validation emits its notice and raises
`UserWarning`; `set_passwd` may raise; a non-`SUCCESS` result sets
`failed`.  Returns `(has_file, has_folder, failed)`. -/
def spLoop (backend : Nat → String → Bool → Except SPExc Code) :
    List SPInfo → Bool → Bool → Bool → Except SPExc (Bool × Bool × Bool)
  | [], hf, hfo, fl => .ok (hf, hfo, fl)
  | i :: t, hf, hfo, fl =>
    let checked : Except SPExc (Bool × Bool) :=
      if i.is_file then
        if (2 > i.new_pwd.length ∧ i.new_pwd.length ≥ 1) ∨ i.new_pwd.length > 6 then
          .error (.userWarning "文件提取码为2-6位字符,关闭请留空！")
        else .ok (true, hfo)
      else
        if (2 > i.new_pwd.length ∧ i.new_pwd.length ≥ 1) ∨ i.new_pwd.length > 12 then
          .error (.userWarning "文件夹提取码为0-12位字符,关闭请留空！")
        else .ok (hf, true)
    match checked with
    | .error e => .error e
    | .ok (hf2, hfo2) =>
      match backend i.id i.new_pwd i.is_file with
      | .error e => .error e
      | .ok c => spLoop backend t hf2 hfo2 (fl ∨ c ≠ Code.SUCCESS)

structure SPState where
  is_work : Bool
deriving DecidableEq

structure SPOut where
  msgs : List String
  updateEmitted : Bool
  unlocks : Nat
deriving DecidableEq

/-- `SetPwdWorker.run`: busy branch emits the busy notice; otherwise the
loop runs under `try/except` (`TimeoutError` emits the timeout notice,
`UserWarning` is passed over — its message was emitted before the raise —
and any other fault is only logged), after which `_is_work` is cleared and
the mutex released exactly once. -/
def spRun (backend : Nat → String → Bool → Except SPExc Code) (infos : List SPInfo)
    (s : SPState) : SPState × SPOut :=
  if s.is_work then
    (s, { msgs := ["后台正在运行，请稍后重试！"], updateEmitted := false, unlocks := 0 })
  else
    let out : SPOut :=
      match spLoop backend infos false false false with
      | .ok (_, _, fl) =>
          { msgs := [if fl then "部分提取码变更失败，请勿使用特殊符号!" else "提取码变更成功！♬"],
            updateEmitted := true, unlocks := 1 }
      | .error (.userWarning m) => { msgs := [m], updateEmitted := false, unlocks := 1 }
      | .error .timeout => { msgs := ["网络超时，请稍后重试！"], updateEmitted := false, unlocks := 1 }
      | .error .err => { msgs := [], updateEmitted := false, unlocks := 1 }
    ({ is_work := false }, out)

/-! ## `LoginLuncher` (login thread — note: it has no `_is_work` guard) -/

structure LoginState where
  username : String
  password : String
  cookie : Option String
  threadRunning : Bool
deriving DecidableEq

structure LoginBackend where
  byCookie : String → Except GFault Code
  byPwd : String → String → Except GFault Code

structure LoginOut where
  msgs : List String
  attempts : List String
deriving DecidableEq

/-- `LoginLuncher.set_values`: assign the credential fields, then call
`QThread.start()`.  Starting an already-running `QThread` is a documented
no-op, so while the thread is running a new submit only overwrites the
fields.  Returns the new state, whether a fresh `run` was started, and the
messages emitted by the submit itself (`set_values` emits none). -/
def loginSubmit (u p : String) (c : Option String) (s : LoginState) :
    LoginState × Bool × List String :=
  if s.threadRunning then
    ({ username := u, password := p, cookie := c, threadRunning := true }, false, [])
  else
    ({ username := u, password := p, cookie := c, threadRunning := true }, true, [])

/-- `LoginLuncher.run` body: cookie login first when a cookie is present
(returning on success), then the empty-credential check, then password
login; `TimeoutError` is reported, other faults only logged.  `attempts`
lists the usernames (or `cookie`) of the calls that reach the backend. -/
def loginRunBody (bk : LoginBackend) (s : LoginState) : LoginOut :=
  match s.cookie with
  | some ck =>
    (match bk.byCookie ck with
     | .ok .SUCCESS => { msgs := ["通过Cookie登录成功！"], attempts := ["cookie"] }
     | .ok _ =>
        (match bk.byPwd s.username s.password with
         | .ok .SUCCESS => { msgs := ["登录成功！"], attempts := ["cookie", s.username] }
         | .ok _ => { msgs := ["登录失败，可能是用户名或密码错误！"], attempts := ["cookie", s.username] }
         | .error .timeout => { msgs := ["网络超时！"], attempts := ["cookie", s.username] }
         | .error .err => { msgs := [], attempts := ["cookie", s.username] })
     | .error .timeout => { msgs := ["网络超时！"], attempts := ["cookie"] }
     | .error .err => { msgs := [], attempts := ["cookie"] })
  | none =>
    if s.username = "" ∨ s.password = "" then
      { msgs := ["登录失败: 没有用户或密码"], attempts := [] }
    else
      match bk.byPwd s.username s.password with
      | .ok .SUCCESS => { msgs := ["登录成功！"], attempts := [s.username] }
      | .ok _ => { msgs := ["登录失败，可能是用户名或密码错误！"], attempts := [s.username] }
      | .error .timeout => { msgs := ["网络超时！"], attempts := [s.username] }
      | .error .err => { msgs := [], attempts := [s.username] }

def loginBackendOk : LoginBackend :=
  { byCookie := fun _ => .ok Code.SUCCESS, byPwd := fun _ _ => .ok Code.SUCCESS }

/-- Scenario C double submit: submit `alice`, then submit `bob` while the
first `run` is still in flight, then let the (single) `run` execute.
Returns the messages the second submit emitted and the backend attempts of
the whole scenario. -/
def loginDoubleSubmit : List String × List String :=
  let s0 : LoginState := { username := "", password := "", cookie := none, threadRunning := false }
  let r1 := loginSubmit "alice" "pw1" none s0
  let r2 := loginSubmit "bob" "pw2" none r1.1
  let out := loginRunBody loginBackendOk r2.1
  (r2.2.2, out.attempts)

/-! ## Concrete scenario values used by witnesses and counterexamples -/

/-- The same download job as `jobU1` resubmitted with a different password. -/
def jobU1p : DlJob := { jobU1 with pwd := "p" }

/-- A manager with a single active worker for `u1`. -/
def mgrOneActive : MgrState :=
  { tasks := [], thread := 2, count := 1, workers := [(0, true)],
    downloaders := [("u1", 0)], dl_ing := [("u1", { jobU1 with run := true })],
    lastUrl := "u1", nextWid := 1 }

/-- An `upload_file` behaviour returning `SUCCESS`. -/
def upSuccess : String → Nat → UpOutcome := fun _ _ => UpOutcome.ok Code.SUCCESS 7 true

/-! ## Helper lemmas about the dict model -/

theorem alookup_aset_self {κ : Type} [DecidableEq κ] {α : Type} (k : κ) (v : α)
    (l : List (κ × α)) : alookup k (aset k v l) = some v := by
  induction l with
  | nil => simp [alookup, aset]
  | cons h2 t ih =>
    obtain ⟨k2, v2⟩ := h2
    by_cases hk : k2 = k
    · simp [aset, alookup, hk]
    · simp [aset, alookup, hk, ih]

theorem aset_aset_self {κ : Type} [DecidableEq κ] {α : Type} (k : κ) (v v2 : α)
    (l : List (κ × α)) : aset k v (aset k v2 l) = aset k v l := by
  induction l with
  | nil => simp [aset]
  | cons h2 t ih =>
    obtain ⟨k3, v3⟩ := h2
    by_cases hk : k3 = k
    · simp [aset, hk]
    · simp [aset, hk, ih]

theorem aset_eq_self_of_alookup {κ : Type} [DecidableEq κ] {α : Type} {k : κ} {v : α}
    {l : List (κ × α)} (h : alookup k l = some v) : aset k v l = l := by
  induction l with
  | nil => simp [alookup] at h
  | cons h2 t ih =>
    obtain ⟨k2, v2⟩ := h2
    by_cases hk : k2 = k
    · simp [alookup, hk] at h
      simp [aset, hk, h]
    · simp [alookup, hk] at h
      simp [aset, hk, ih h]

theorem countKey_aset_of_alookup {κ : Type} [DecidableEq κ] {α : Type} {k : κ} {v0 : α}
    (v : α) {l : List (κ × α)} (h : alookup k l = some v0) :
    countKey k (aset k v l) = countKey k l := by
  induction l with
  | nil => simp [alookup] at h
  | cons h2 t ih =>
    obtain ⟨k2, v2⟩ := h2
    by_cases hk : k2 = k
    · simp [aset, hk, countKey, List.filter]
    · simp [alookup, hk] at h
      simp [aset, hk, countKey, List.filter] at ih ⊢
      simp [hk, ih h]

/-! ## Helper lemmas about the obfuscation routines -/

theorem decPairs_encBytes (key : Nat) (bs : List Nat) :
    decPairs key (encBytes key bs) = bs := by
  induction bs with
  | nil => rfl
  | cons b t ih =>
    simp only [encBytes, decPairs, Nat.add_sub_cancel]
    rw [Nat.mul_comm, Nat.div_add_mod, Nat.xor_cancel_right, ih]

theorem encBytes_length (key : Nat) (bs : List Nat) :
    (encBytes key bs).length = 2 * bs.length := by
  induction bs with
  | nil => rfl
  | cons b t ih => simp [encBytes, ih]; omega

theorem xor_key_lt (b : Nat) (h : b < 256) : b ^^^ KEY < 256 := by
  have h2 : b ^^^ KEY < 2 ^ 8 := Nat.xor_lt_two_pow (by omega) (by norm_num [KEY])
  omega

theorem encBytes_mem_range (bs : List Nat) (h : ∀ b ∈ bs, b < 256) :
    ∀ c ∈ encBytes KEY bs, 46 ≤ c ∧ c ≤ 64 := by
  induction bs with
  | nil => simp [encBytes]
  | cons b t ih =>
    intro c hc
    have hb : b < 256 := h b (by simp)
    have hx : b ^^^ KEY < 256 := xor_key_lt b hb
    simp only [encBytes, List.mem_cons] at hc
    rcases hc with rfl | hc
    · have : (b ^^^ KEY) % 19 < 19 := Nat.mod_lt _ (by norm_num)
      omega
    rcases hc with rfl | hc
    · have : (b ^^^ KEY) / 19 ≤ 255 / 19 := Nat.div_le_div_right (by omega)
      omega
    · exact ih (fun x hx2 => h x (by simp [hx2])) c hc

theorem uiDecode_uiEncode (bs : List Nat) (h256 : ∀ b ∈ bs, b < 256) (hne : bs ≠ []) :
    uiDecode (uiEncode (some bs)) = some bs := by
  cases bs with
  | nil => exact absurd rfl hne
  | cons b t =>
    have hdec : decryptBytes KEY (encBytes KEY (b :: t)) = b :: t := by
      rw [decryptBytes]
      simp [encBytes_length, Nat.mul_mod_right, decPairs_encBytes]
    obtain ⟨c1, c2, rest, he⟩ : ∃ c1 c2 rest,
        encBytes KEY (b :: t) = c1 :: c2 :: rest := ⟨_, _, _, rfl⟩
    have h1 : uiEncode (some (b :: t)) = some (encBytes KEY (b :: t)) := rfl
    rw [h1, he]
    simp only [uiDecode]
    rw [← he, hdec]
    have hall : ((b :: t).all fun x => x < 256) = true := by
      simp only [List.all_eq_true, decide_eq_true_eq]
      exact h256
    simp [hall]

/-! ## Claim theorems -/

/-- Claim C1: the in-flight Worker count never exceeds the ceiling, and
every path that makes a Worker active keeps the count accurate.  The code
violates this: in `c1Trace` (ceiling 2) the `finished` callback of the
stopped u1 Worker late-binds the dispatch loop variable `url` and retires
u2's dict entry while u2's thread keeps running, `start_task` then restarts
u1's Worker without incrementing `_count`, and the dispatch loop — seeing
`_count = 1 < 2` — spawns a third Worker: three Downloader threads run
concurrently under ceiling 2. -/
theorem c1_ceiling_violation :
    (c1Trace.map fun s => decide (inFlight s ≤ s.thread)) = some false ∧
    (c1Trace.map fun s => (inFlight s, s.thread)) = some (3, 2) := by
  exact ⟨by decide, by decide⟩

/-- Claim C4: on `total > 0` and `done ≤ total` the emitted per-mille rate
`int(1000 * done / total)` is exactly the floor of `1000 * done / total`
(characterized by the two product bounds), equals 1000 iff `done = total`,
and is monotone in `done`. -/
theorem c4_rate_floor_iff_monotone (total done : Nat) (h1 : 0 < total) (h2 : done ≤ total) :
    showProgressRate total done = some (1000 * done / total) ∧
    1000 * done / total * total ≤ 1000 * done ∧
    1000 * done < (1000 * done / total + 1) * total ∧
    (1000 * done / total = 1000 ↔ done = total) ∧
    (∀ d2, done ≤ d2 → 1000 * done / total ≤ 1000 * d2 / total) := by
  refine ⟨?_, ?_, ?_, ?_, ?_⟩
  · simp [showProgressRate, Nat.pos_iff_ne_zero.mp h1]
  · exact Nat.div_mul_le_self _ _
  · exact (Nat.div_lt_iff_lt_mul h1).mp (Nat.lt_succ_self _)
  · constructor
    · intro h
      by_contra hne
      have hlt : done < total := lt_of_le_of_ne h2 hne
      have hq : 1000 * done / total < 1000 :=
        (Nat.div_lt_iff_lt_mul h1).mpr (by omega)
      omega
    · rintro rfl
      exact Nat.mul_div_cancel 1000 h1
  · intro d2 hd
    exact Nat.div_le_div_right (by omega)

/-- Witness for C4 at `total = 4`, `done = 3`. -/
theorem c4_witness :
    (0 < 4 ∧ 3 ≤ 4) ∧
    (showProgressRate 4 3 = some (1000 * 3 / 4) ∧
     1000 * 3 / 4 * 4 ≤ 1000 * 3 ∧
     1000 * 3 < (1000 * 3 / 4 + 1) * 4 ∧
     (1000 * 3 / 4 = 1000 ↔ 3 = 4) ∧
     (∀ d2, 3 ≤ d2 → 1000 * 3 / 4 ≤ 1000 * d2 / 4)) :=
  ⟨⟨by decide, by decide⟩, c4_rate_floor_iff_monotone 4 3 (by decide) (by decide)⟩

/-- Claim C5 counterexample: at `total_bytes = 0` and `done_bytes = 5` the
progress computation does not report rate 1000 — both the per-mille rate of
`Downloader._show_progress` and the `percent` of `show_progress` raise
`ZeroDivisionError` (modelled as `none`). -/
theorem c5_zero_total_faults :
    showProgressRate 0 5 = none ∧ showProgressPercent 0 5 = none ∧
    ¬ showProgressRate 0 5 = some 1000 :=
  ⟨rfl, rfl, by decide⟩

/-- Claim C5 amended: the progress computation is not total — for
`total_bytes = 0` and every `done_bytes` it raises `ZeroDivisionError`
(caught only by the calling Worker's generic fault handler) instead of
reporting the job complete. -/
theorem c5_zero_total_amended :
    ∀ now : Nat, showProgressRate 0 now = none ∧ showProgressPercent 0 now = none :=
  fun _ => ⟨rfl, rfl⟩

/-- Claim C6: an upload job whose local path does not exist should have its
error field set, be removed from the pending mapping, and let the loop
continue.  The code instead hits `continue` before the `del`, so one loop
iteration leaves the state unchanged: the job is never removed, its `info`
field stays `none`, no follow-up work happens, and the not-found message is
re-emitted forever — the loop never reaches any other pending job. -/
theorem c6_missing_path_loops_forever :
    uploadStepState fsMissing upNever upStateGone = upStateGone ∧
    (∀ k : Nat, (uploadStepState fsMissing upNever)^[k] upStateGone = upStateGone) ∧
    (uploadIter fsMissing upNever upStateGone).2.followUps = [] ∧
    (uploadIter fsMissing upNever upStateGone).2.msgs = ["ERROR : 文件不存在:/gone"] ∧
    (alookup "/gone" ((uploadStepState fsMissing upNever)^[5] upStateGone).tasks).map UpJob.info
      = some none := by
  refine ⟨rfl, fun k => Function.iterate_fixed rfl k, rfl, by decide, by decide⟩

/-- Claim C2 counterexample: `LoginLuncher` has no busy guard, so Scenario C
fails on the code.  In the modelled double submit (`alice` submitted, then
`bob` submitted before the first run completes), `set_values` emits no
message at all — in particular no "already running" rejection — because
`QThread.start()` on the running thread is a silent no-op, and the single
backend login that happens uses the second submit's credentials: the first
accepted submit's login never reaches the backend. -/
theorem c2_login_no_reject_message :
    loginDoubleSubmit.1 = [] ∧ loginDoubleSubmit.2 = ["bob"] ∧
    ¬ "alice" ∈ loginDoubleSubmit.2 := by
  exact ⟨by decide, by decide, by decide⟩

/-- Claim C2 amended: workers that carry the `_is_work` guard (here
`GetSharedInfo`) reject a run issued while Busy with the "already running"
notice, making no backend call and leaving the state untouched;
`LoginLuncher` however has no guard: a second submit while the first run is
in flight is silently dropped by the thread (no message), overwrites the
stored credentials, and exactly one backend login (with the latest
credentials) is made. -/
theorem c2_guard_and_login_amended :
    (∀ backFile backFolder url pwd isf isfo,
      gsRun backFile backFolder ⟨true, url, pwd, isf, isfo⟩ =
        (⟨true, url, pwd, isf, isfo⟩,
         { msgs := ["后台正在运行，稍后重试！"], backendCalls := 0,
           infosEmitted := false, unlocks := 0 })) ∧
    loginDoubleSubmit = ([], ["bob"]) := by
  exact ⟨fun _ _ _ _ _ _ => rfl, by decide⟩

/-- Claim C3: for the guarded workers cited (`GetSharedInfo.run`,
`SetPwdWorker.run`), every invocation accepted from the Idle state clears
`_is_work` and releases the mutex exactly once before returning, for every
behaviour of the wrapped backend call (success, declined status, timeout,
or any other fault, including the `UserWarning` validation path of
`SetPwdWorker` and the unbound-variable fault of `GetSharedInfo` when the
url is neither file nor folder); no fault escapes the run. -/
theorem c3_guard_released_all_paths :
    (∀ backFile backFolder url pwd isf isfo,
      (gsRun backFile backFolder ⟨false, url, pwd, isf, isfo⟩).1.is_work = false ∧
      (gsRun backFile backFolder ⟨false, url, pwd, isf, isfo⟩).2.unlocks = 1) ∧
    (∀ backend infos,
      (spRun backend infos ⟨false⟩).1.is_work = false ∧
      (spRun backend infos ⟨false⟩).2.unlocks = 1) := by
  constructor
  · intro backFile backFolder url pwd isf isfo
    refine ⟨rfl, ?_⟩
    show (gsRun backFile backFolder ⟨false, url, pwd, isf, isfo⟩).2.unlocks = 1
    simp only [gsRun, Bool.false_eq_true, if_false]
    cases isf with
    | true =>
      cases backFile url pwd with
      | ok i => rfl
      | error f => cases f <;> rfl
    | false =>
      cases isfo with
      | true =>
        cases backFolder url pwd with
        | ok i => rfl
        | error f => cases f <;> rfl
      | false => rfl
  · intro backend infos
    refine ⟨rfl, ?_⟩
    show (spRun backend infos ⟨false⟩).2.unlocks = 1
    simp only [spRun, Bool.false_eq_true, if_false]
    cases spLoop backend infos false false false with
    | ok r =>
      obtain ⟨hf, hfo, fl⟩ := r
      rfl
    | error e => cases e <;> rfl

/-- Claim C7 counterexample: resubmitting the pending key `u1` through the
batch `add_tasks` with a different password replaces the already-pending
record (`dict.update` overwrites), contradicting "the duplicate submission
is ignored and does not alter the already-pending entry". -/
theorem c7_batch_overwrites_pending :
    ¬ alookup "u1" (addTasks [("u1", jobU1p)] (addTask jobU1 (initMgr 3))).tasks
        = some jobU1 := by
  decide

/-- Claim C7 amended: a duplicate key still yields exactly one pending
entry for both the single and the batch add, and the single `add_task`
ignores the duplicate entirely, but the batch `add_tasks` replaces the
pending record with the newly submitted one. -/
theorem c7_dedup_amended (t t2 : DlJob) (s : MgrState) (t0 : DlJob)
    (h : alookup t.url s.tasks = some t0) (hc : countKey t.url s.tasks = 1) :
    addTask t s = s ∧
    countKey t.url (addTask t s).tasks = 1 ∧
    countKey t.url (addTasks [(t.url, t2)] s).tasks = 1 ∧
    alookup t.url (addTasks [(t.url, t2)] s).tasks = some t2 := by
  refine ⟨?_, ?_, ?_, ?_⟩
  · simp [addTask, h]
  · simp [addTask, h, hc]
  · simp only [addTasks, List.foldl]
    rw [countKey_aset_of_alookup t2 h, hc]
  · simp only [addTasks, List.foldl]
    exact alookup_aset_self _ _ _

/-- Witness for C7 at a state holding `u1` once. -/
theorem c7_witness :
    (alookup jobU1.url (addTask jobU1 (initMgr 3)).tasks = some jobU1 ∧
     countKey jobU1.url (addTask jobU1 (initMgr 3)).tasks = 1) ∧
    (addTask jobU1 (addTask jobU1 (initMgr 3)) = addTask jobU1 (initMgr 3) ∧
     countKey jobU1.url (addTask jobU1 (addTask jobU1 (initMgr 3))).tasks = 1 ∧
     countKey jobU1.url (addTasks [(jobU1.url, jobU1p)] (addTask jobU1 (initMgr 3))).tasks = 1 ∧
     alookup jobU1.url (addTasks [(jobU1.url, jobU1p)] (addTask jobU1 (initMgr 3))).tasks
       = some jobU1p) :=
  ⟨⟨by decide, by decide⟩,
   c7_dedup_amended jobU1 jobU1p (addTask jobU1 (initMgr 3)) jobU1 (by decide) (by decide)⟩

/-- Claim C8: stopping an active download job marks its published record
`run = false` while keeping it restartable, and a subsequent `start_task`
resumes the very same key with `run = true`, adds no pending entry, leaves
`_count` untouched, and leaves the number of executing workers unchanged
(no double count). -/
theorem c8_stop_start_resume (s : MgrState) (t : DlJob) (wid : Nat) (j : DlJob)
    (hd : alookup t.url s.downloaders = some wid)
    (hw : alookup wid s.workers = some true)
    (hj : alookup t.url s.dl_ing = some j) :
    ∃ s1 s2, stopTask t s = some s1 ∧ startTask t s1 = some s2 ∧
      (alookup t.url s1.dl_ing).map DlJob.run = some false ∧
      (alookup t.url s2.dl_ing).map DlJob.run = some true ∧
      s1.tasks = s.tasks ∧ s2.tasks = s.tasks ∧
      s1.count = s.count ∧ s2.count = s.count ∧
      s2.downloaders = s.downloaders ∧
      inFlight s2 = inFlight s := by
  use { s with workers := aset wid false s.workers, dl_ing := aset t.url { j with run := false } s.dl_ing }
  use { s with workers := aset wid true (aset wid false s.workers), dl_ing := aset t.url { j with run := true } (aset t.url { j with run := false } s.dl_ing) }
  refine ⟨?_, ?_, ?_, ?_, rfl, rfl, rfl, rfl, rfl, ?_⟩
  · simp [stopTask, hd, hw, hj]
  · simp [startTask, hd, alookup_aset_self]
  · simp [alookup_aset_self]
  · simp [alookup_aset_self]
  · show inFlight { s with workers := aset wid true (aset wid false s.workers), dl_ing := aset t.url { j with run := true } (aset t.url { j with run := false } s.dl_ing) } = inFlight s
    simp only [inFlight, aset_aset_self]
    rw [aset_eq_self_of_alookup hw]

/-- Witness for C8 at a manager with one active worker for `u1`. -/
theorem c8_witness :
    (alookup jobU1.url mgrOneActive.downloaders = some 0 ∧
     alookup 0 mgrOneActive.workers = some true ∧
     alookup jobU1.url mgrOneActive.dl_ing = some { jobU1 with run := true }) ∧
    (∃ s1 s2, stopTask jobU1 mgrOneActive = some s1 ∧ startTask jobU1 s1 = some s2 ∧
      (alookup jobU1.url s1.dl_ing).map DlJob.run = some false ∧
      (alookup jobU1.url s2.dl_ing).map DlJob.run = some true ∧
      s1.tasks = mgrOneActive.tasks ∧ s2.tasks = mgrOneActive.tasks ∧
      s1.count = mgrOneActive.count ∧ s2.count = mgrOneActive.count ∧
      s2.downloaders = mgrOneActive.downloaders ∧
      inFlight s2 = inFlight mgrOneActive) :=
  ⟨⟨by decide, by decide, by decide⟩,
   c8_stop_start_resume mgrOneActive jobU1 0 { jobU1 with run := true }
     (by decide) (by decide) (by decide)⟩

/-- Claim C9 counterexample: when `upload_file` returns the explicit
non-success status `FAILED` for a job with `set_pwd` set, no follow-up call
is made (as claimed), but the job record's `info` field is set to the
success message 上传成功, not to any record of the failure, and no error
message is emitted — contradicting "the job record's error field is updated
instead" for the non-success-status case. -/
theorem c9_declined_info_success_msg :
    (uploadIter fsC9 upDeclined ⟨[("/a.txt", jobC9)]⟩).2.followUps = [] ∧
    (uploadIter fsC9 upDeclined ⟨[("/a.txt", jobC9)]⟩).2.finalTask.map UpJob.info
      = some (some "上传成功") ∧
    (uploadIter fsC9 upDeclined ⟨[("/a.txt", jobC9)]⟩).2.msgs = ["INFO : 上传文件:/a.txt"] := by
  exact ⟨by decide, by decide, by decide⟩

/-- Claim C9 amended: for a single-file upload job, the set-password and
set-description follow-ups run exactly when the upload returned `SUCCESS`
and the corresponding directive flag is set; on a timeout or an unexpected
fault no follow-up runs and the error field records the failure; on an
explicit non-success status no follow-up runs but the `info` field is set
to the success message 上传成功 (the failure is not recorded); in all these
cases the job is removed from the pending mapping. -/
theorem c9_followups_amended (fs : String → Option Bool) (upload : String → Nat → UpOutcome)
    (furl : String) (task : UpJob) (rest : List (String × UpJob))
    (hfs : fs furl = some false) :
    (∀ code fid isfile, upload task.furl task.id = UpOutcome.ok code fid isfile →
      (uploadIter fs upload ⟨(furl, task) :: rest⟩).2.followUps =
        (if code = Code.SUCCESS ∧ task.set_pwd then [FollowUp.setPasswd fid task.pwd isfile] else [])
          ++ (if code = Code.SUCCESS ∧ task.set_desc then [FollowUp.setDesc fid task.desc isfile] else []) ∧
      (uploadIter fs upload ⟨(furl, task) :: rest⟩).2.finalTask
        = some { task with info := some "上传成功" }) ∧
    (upload task.furl task.id = UpOutcome.timeout →
      (uploadIter fs upload ⟨(furl, task) :: rest⟩).2.followUps = [] ∧
      (uploadIter fs upload ⟨(furl, task) :: rest⟩).2.finalTask
        = some { task with info := some "网络连接超时" }) ∧
    (upload task.furl task.id = UpOutcome.err →
      (uploadIter fs upload ⟨(furl, task) :: rest⟩).2.followUps = [] ∧
      (uploadIter fs upload ⟨(furl, task) :: rest⟩).2.finalTask
        = some { task with info := some "未知错误" }) ∧
    (uploadIter fs upload ⟨(furl, task) :: rest⟩).1.tasks = aerase furl ((furl, task) :: rest) := by
  refine ⟨?_, ?_, ?_, ?_⟩
  · intro code fid isfile h
    constructor <;> simp [uploadIter, hfs, h]
  · intro h
    constructor <;> simp [uploadIter, hfs, h]
  · intro h
    constructor <;> simp [uploadIter, hfs, h]
  · cases h : upload task.furl task.id <;> simp [uploadIter, hfs, h]

/-- Witness for C9 on a successful upload with `set_pwd` set. -/
theorem c9_witness :
    fsC9 "/a.txt" = some false ∧
    ((∀ code fid isfile, upSuccess jobC9.furl jobC9.id = UpOutcome.ok code fid isfile →
      (uploadIter fsC9 upSuccess ⟨[("/a.txt", jobC9)]⟩).2.followUps =
        (if code = Code.SUCCESS ∧ jobC9.set_pwd then [FollowUp.setPasswd fid jobC9.pwd isfile] else [])
          ++ (if code = Code.SUCCESS ∧ jobC9.set_desc then [FollowUp.setDesc fid jobC9.desc isfile] else []) ∧
      (uploadIter fsC9 upSuccess ⟨[("/a.txt", jobC9)]⟩).2.finalTask
        = some { jobC9 with info := some "上传成功" }) ∧
    (upSuccess jobC9.furl jobC9.id = UpOutcome.timeout →
      (uploadIter fsC9 upSuccess ⟨[("/a.txt", jobC9)]⟩).2.followUps = [] ∧
      (uploadIter fsC9 upSuccess ⟨[("/a.txt", jobC9)]⟩).2.finalTask
        = some { jobC9 with info := some "网络连接超时" }) ∧
    (upSuccess jobC9.furl jobC9.id = UpOutcome.err →
      (uploadIter fsC9 upSuccess ⟨[("/a.txt", jobC9)]⟩).2.followUps = [] ∧
      (uploadIter fsC9 upSuccess ⟨[("/a.txt", jobC9)]⟩).2.finalTask
        = some { jobC9 with info := some "未知错误" }) ∧
    (uploadIter fsC9 upSuccess ⟨[("/a.txt", jobC9)]⟩).1.tasks
      = aerase "/a.txt" [("/a.txt", jobC9)]) :=
  ⟨by decide, c9_followups_amended fsC9 upSuccess "/a.txt" jobC9 [] (by decide)⟩

/-- Claim C10 counterexample: storing the empty string in `UserInfo` does
not round-trip through the accessor — `decode` maps a falsy stored value to
`None`, so the `name` accessor returns `None` instead of the stored empty
string. -/
theorem c10_empty_string_accessor :
    ¬ (mkUserInfo (some []) none none).name = some [] := by decide

/-- Claim C10 amended: at the byte level, `decrypt(KEY, encrypt(KEY, s))`
recovers every byte string, the output of `encrypt` has even length `2n`,
every emitted byte is printable ASCII in 46..64 (the remainder byte in
46..64, the quotient byte in 46..59, hence the output always decodes as
UTF-8), and the `UserInfo` accessors return exactly the stored value for
every non-empty value (for the empty string they return `None`). -/
theorem c10_roundtrip_amended (bs : List Nat) (h256 : ∀ b ∈ bs, b < 256) (hne : bs ≠ []) :
    decryptBytes KEY (encBytes KEY bs) = bs ∧
    (encBytes KEY bs).length = 2 * bs.length ∧
    (∀ c ∈ encBytes KEY bs, 46 ≤ c ∧ c ≤ 64) ∧
    (∀ b ∈ bs, 46 ≤ (b ^^^ KEY) % 19 + 46 ∧ (b ^^^ KEY) % 19 + 46 ≤ 64 ∧
               46 ≤ (b ^^^ KEY) / 19 + 46 ∧ (b ^^^ KEY) / 19 + 46 ≤ 59) ∧
    (mkUserInfo (some bs) (some bs) (some bs)).name = some bs ∧
    (mkUserInfo (some bs) (some bs) (some bs)).pwdVal = some bs ∧
    (mkUserInfo (some bs) (some bs) (some bs)).cookieVal = some bs := by
  have hlen : (encBytes KEY bs).length = 2 * bs.length := encBytes_length KEY bs
  have hrt : decryptBytes KEY (encBytes KEY bs) = bs := by
    rw [decryptBytes]
    simp [hlen, Nat.mul_mod_right, decPairs_encBytes]
  have hacc : uiDecode (uiEncode (some bs)) = some bs := uiDecode_uiEncode bs h256 hne
  refine ⟨hrt, hlen, encBytes_mem_range bs h256, ?_, hacc, hacc, hacc⟩
  intro b hb
  have hx : b ^^^ KEY < 256 := xor_key_lt b (h256 b hb)
  have hm : (b ^^^ KEY) % 19 < 19 := Nat.mod_lt _ (by norm_num)
  have hq : (b ^^^ KEY) / 19 ≤ 255 / 19 := Nat.div_le_div_right (by omega)
  omega

/-- Witness for C10 on the two-byte string `hi`. -/
theorem c10_witness :
    ((∀ b ∈ [104, 105], b < 256) ∧ ([104, 105] : List Nat) ≠ []) ∧
    (decryptBytes KEY (encBytes KEY [104, 105]) = [104, 105] ∧
     (encBytes KEY [104, 105]).length = 2 * ([104, 105] : List Nat).length ∧
     (∀ c ∈ encBytes KEY [104, 105], 46 ≤ c ∧ c ≤ 64) ∧
     (∀ b ∈ [104, 105], 46 ≤ (b ^^^ KEY) % 19 + 46 ∧ (b ^^^ KEY) % 19 + 46 ≤ 64 ∧
                46 ≤ (b ^^^ KEY) / 19 + 46 ∧ (b ^^^ KEY) / 19 + 46 ≤ 59) ∧
     (mkUserInfo (some [104, 105]) (some [104, 105]) (some [104, 105])).name = some [104, 105] ∧
     (mkUserInfo (some [104, 105]) (some [104, 105]) (some [104, 105])).pwdVal = some [104, 105] ∧
     (mkUserInfo (some [104, 105]) (some [104, 105]) (some [104, 105])).cookieVal = some [104, 105]) :=
  ⟨⟨by decide, by decide⟩, c10_roundtrip_amended [104, 105] (by decide) (by decide)⟩

end LanzouGui
